import Mathlib

/-!
Verification of the sqlite3-header repository.

The repository consists of three Rust files:

* `src/main.rs` — the actual decode walk over the first 100 bytes of a
  database file: it slices fixed byte ranges out of the buffer, converts
  big-endian byte groups to integers, and enforces the header's validity
  rules with `assert!` / `unimplemented!` (both of which terminate the
  process by a panic) and with `slice_to_word`, whose `?` is the only
  failure that is *returned* (a `TryFromSliceError`).
* `src/lib.rs` — the typed data model (`SQLite3Header` and its component
  enums and structs) together with two slice-to-integer codecs that
  `unwrap` (panic) on wrong-length input.  No decode function exists in
  the library.
* `src/error.rs` — an `Error` enum with two variants and a `Display`
  implementation.  `main.rs` never constructs these errors.

The embedding below models a Rust computation that may (a) return a value,
(b) return an error through `Result`, or (c) panic, as the three-way
outcome type `RustOutcome`.  Panics are identified by the program point
(`AbortSite`) at which they occur: each `assert!`, `unimplemented!`,
`unwrap` and slice-indexing site of the source is one constructor.
Bytes are modelled as natural numbers; every concrete buffer used below
has entries < 256, matching `Vec<u8>`.
-/

/-- Program points of `src/main.rs` and `src/lib.rs` at which the Rust code
panics (via `assert!`, `unimplemented!`, `unwrap`, or out-of-range slice
indexing).  A panic aborts the process; it is not a returned error. -/
inductive AbortSite : Type where
  /-- any `contents[a..b]` or `contents[i]` indexing beyond the buffer -/
  | sliceOutOfBounds
  /-- `try_into().unwrap()` on a wrong-length slice (main.rs line 16,
      lib.rs lines 16 and 20) -/
  | unwrapFailed
  /-- `assert!(contents[0..16] == MAGIC_HEADER_STRING)` (main.rs line 13) -/
  | assertMagicHeader
  /-- `assert!(page_size.is_power_of_two())` (main.rs line 19) -/
  | assertPow2
  /-- `assert!(page_size > 511)` (main.rs line 20) -/
  | assertGt511
  /-- `assert!(page_size < 32769)` (main.rs line 21) -/
  | assertLt32769
  /-- `unimplemented!()` in the write-version match (main.rs line 28) -/
  | unimplementedWriteVersion
  /-- `unimplemented!()` in the read-version match (main.rs line 33) -/
  | unimplementedReadVersion
  /-- `assert!(contents[21] == 64)` (main.rs line 38) -/
  | assertMaxEmbedded
  /-- `assert!(contents[22] == 32)` (main.rs line 41) -/
  | assertMinEmbedded
  /-- `assert!(contents[23] == 32)` (main.rs line 44) -/
  | assertLeafFraction
  /-- `assert!([1, 2, 3, 4].contains(&schema_format))` (main.rs line 63) -/
  | assertSchemaFormat
  /-- `unimplemented!()` in the text-encoding match (main.rs line 77) -/
  | unimplementedTextEncoding
  /-- `assert!(reserved.iter().all(|&v| v == 0))` (main.rs line 90) -/
  | assertReservedZero
deriving DecidableEq, Repr

/-- `std::array::TryFromSliceError`: the error returned by
`slice.try_into()` when the slice length does not match the array length. -/
inductive TryFromSliceError : Type where
  | mk
deriving DecidableEq, Repr

/-- Outcome of running a piece of Rust code: a returned value, an error
returned through `Result`, or a panic at a known program point. -/
inductive RustOutcome (ε α : Type) : Type where
  | ok (a : α)
  | err (e : ε)
  | aborted (site : AbortSite)
deriving DecidableEq, Repr

/-- Sequencing of Rust computations: `?`-style propagation of errors and
propagation of panics. -/
def RustOutcome.bind : RustOutcome ε α → (α → RustOutcome ε β) → RustOutcome ε β
  | .ok a, f => f a
  | .err e, _ => .err e
  | .aborted s, _ => .aborted s

instance : Monad (RustOutcome ε) where
  pure := .ok
  bind := RustOutcome.bind

/-- The computation produced a value. -/
def RustOutcome.isOk : RustOutcome ε α → Bool
  | .ok _ => true
  | _ => false

/-- The computation returned an error value through its `Result` channel
(as opposed to panicking). -/
def RustOutcome.isErr : RustOutcome ε α → Bool
  | .err _ => true
  | _ => false

/-- Outcome type of `main`: its `Result` error channel is populated only by
`slice_to_word`'s `TryFromSliceError` (the `std::fs::read` call is outside
the decode computation and not modelled). -/
abbrev M (α : Type) : Type := RustOutcome TryFromSliceError α

/-- The pure byte range `contents[a..b]` (valid only when `b ≤ length`;
`checkedSlice` adds the bounds panic of the Rust indexing). -/
def bytesAt (contents : List Nat) (a b : Nat) : List Nat :=
  (contents.drop a).take (b - a)

/-- Rust's `contents[a..b]`: panics when the range is out of bounds. -/
def checkedSlice (contents : List Nat) (a b : Nat) : M (List Nat) :=
  if b ≤ contents.length then .ok (bytesAt contents a b)
  else .aborted .sliceOutOfBounds

/-- Rust's `contents[i]`: panics when the index is out of bounds. -/
def checkedByte (contents : List Nat) (i : Nat) : M Nat :=
  if i < contents.length then .ok (contents.getD i 0)
  else .aborted .sliceOutOfBounds

/-- Rust's `assert!(cond)`: a panic (not a returned error) when the
condition is false. -/
def rustAssert (cond : Bool) (site : AbortSite) : M Unit :=
  if cond then .ok () else .aborted site

/-- `u16::is_power_of_two` for a value read from two bytes (hence < 2^16):
true exactly when the value is `2^k` for some `k < 16`. -/
def u16IsPowerOfTwo (n : Nat) : Bool :=
  (List.range 16).any (fun k => n == 2 ^ k)

/-- main.rs lines 16-17: `contents[16..18].try_into().unwrap()` followed by
`u16::from_be_bytes` — panics if the slice does not have exactly 2 bytes. -/
def u16FromBeSlice (slice : List Nat) : M Nat :=
  match slice with
  | [b0, b1] => .ok (256 * b0 + b1)
  | _ => .aborted .unwrapFailed

/-- main.rs lines 101-104: `slice_to_word` converts a 4-byte slice to a
big-endian `u32`, returning `TryFromSliceError` (through `Result`, not a
panic) on any other length. -/
def slice_to_word (slice : List Nat) : M Nat :=
  match slice with
  | [b0, b1, b2, b3] => .ok (((b0 * 256 + b1) * 256 + b2) * 256 + b3)
  | _ => .err TryFromSliceError.mk

/-- main.rs lines 25-34: the match used for both file-format version bytes;
values other than 1 and 2 hit `unimplemented!()` (a panic). -/
def fileFormatMatch (b : Nat) (site : AbortSite) : M String :=
  if b = 1 then .ok "legacy"
  else if b = 2 then .ok "Write-Ahead Logging"
  else .aborted site

/-- main.rs lines 73-78: the text-encoding match; values other than 1, 2, 3
hit `unimplemented!()` (a panic). -/
def textEncodingMatch (v : Nat) : M String :=
  if v = 1 then .ok "UTF-8"
  else if v = 2 then .ok "UTF-16le"
  else if v = 3 then .ok "UTF-16be"
  else .aborted .unimplementedTextEncoding

/-- main.rs lines 6-8: the magic constant
`53 51 4c 69 74 65 20 66 6f 72 6d 61 74 20 33 00`. -/
def MAGIC_HEADER_STRING : List Nat :=
  [0x53, 0x51, 0x4c, 0x69, 0x74, 0x65, 0x20, 0x66,
   0x6f, 0x72, 0x6d, 0x61, 0x74, 0x20, 0x33, 0x00]

/-- The values `main` extracts from the buffer and prints, one field per
`let` binding / `println!` of main.rs (the two file-format fields and the
text encoding are the strings chosen by the corresponding `match`). -/
structure DecodedFields : Type where
  page_size : Nat
  file_format_write_version : String
  file_format_read_version : String
  reserved_bytes_per_page : Nat
  maximum_embedded_payload_fraction : Nat
  minimum_embedded_payload_fraction : Nat
  leaf_payload_fraction : Nat
  file_change_counter : Nat
  in_header_database_size : Nat
  freelist_index : Nat
  freelist_count : Nat
  schema_cookie : Nat
  schema_format : Nat
  default_page_cache_size : Nat
  btree_largest_page_root : Nat
  db_encoding : String
  user_version : Nat
  incremental_vacuum_mode : Bool
  application_id : Nat
  version_valid_for_number : Nat
  sqlite_version_number : Nat
deriving DecidableEq, Repr

/-- The decode walk of `main` (main.rs lines 13-98) over the byte buffer
read from the file, in source order: every slice, conversion, `assert!`
and `match` of the source appears here in the same sequence, and the
values `main` prints are collected in a `DecodedFields` record. -/
def decode (contents : List Nat) : M DecodedFields := do
  let magic ← checkedSlice contents 0 16
  rustAssert (magic == MAGIC_HEADER_STRING) .assertMagicHeader
  let bytes ← checkedSlice contents 16 18
  let page_size ← u16FromBeSlice bytes
  rustAssert (u16IsPowerOfTwo page_size) .assertPow2
  rustAssert (decide (page_size > 511)) .assertGt511
  rustAssert (decide (page_size < 32769)) .assertLt32769
  let b18 ← checkedByte contents 18
  let file_format_write_version ← fileFormatMatch b18 .unimplementedWriteVersion
  let b19 ← checkedByte contents 19
  let file_format_read_version ← fileFormatMatch b19 .unimplementedReadVersion
  let reserved_bytes_per_page ← checkedByte contents 20
  let b21 ← checkedByte contents 21
  rustAssert (b21 == 64) .assertMaxEmbedded
  let b22 ← checkedByte contents 22
  rustAssert (b22 == 32) .assertMinEmbedded
  let b23 ← checkedByte contents 23
  rustAssert (b23 == 32) .assertLeafFraction
  let file_change_counter ← slice_to_word (← checkedSlice contents 24 28)
  let in_header_database_size ← slice_to_word (← checkedSlice contents 28 32)
  let freelist_index ← slice_to_word (← checkedSlice contents 32 36)
  let freelist_count ← slice_to_word (← checkedSlice contents 36 40)
  let schema_cookie ← slice_to_word (← checkedSlice contents 40 44)
  let schema_format ← slice_to_word (← checkedSlice contents 44 48)
  rustAssert ([1, 2, 3, 4].contains schema_format) .assertSchemaFormat
  let default_page_cache_size ← slice_to_word (← checkedSlice contents 48 52)
  let btree_largest_page_root ← slice_to_word (← checkedSlice contents 52 56)
  let db_encoding_code ← slice_to_word (← checkedSlice contents 56 60)
  let db_encoding ← textEncodingMatch db_encoding_code
  let user_version ← slice_to_word (← checkedSlice contents 60 64)
  let vacuum_word ← slice_to_word (← checkedSlice contents 64 68)
  let incremental_vacuum_mode := vacuum_word != 0
  let application_id ← slice_to_word (← checkedSlice contents 68 72)
  let reserved ← checkedSlice contents 72 92
  rustAssert (reserved.all (fun v => v == 0)) .assertReservedZero
  let version_valid_for_number ← slice_to_word (← checkedSlice contents 92 96)
  let sqlite_version_number ← slice_to_word (← checkedSlice contents 96 100)
  pure {
    page_size := page_size
    file_format_write_version := file_format_write_version
    file_format_read_version := file_format_read_version
    reserved_bytes_per_page := reserved_bytes_per_page
    maximum_embedded_payload_fraction := b21
    minimum_embedded_payload_fraction := b22
    leaf_payload_fraction := b23
    file_change_counter := file_change_counter
    in_header_database_size := in_header_database_size
    freelist_index := freelist_index
    freelist_count := freelist_count
    schema_cookie := schema_cookie
    schema_format := schema_format
    default_page_cache_size := default_page_cache_size
    btree_largest_page_root := btree_largest_page_root
    db_encoding := db_encoding
    user_version := user_version
    incremental_vacuum_mode := incremental_vacuum_mode
    application_id := application_id
    version_valid_for_number := version_valid_for_number
    sqlite_version_number := sqlite_version_number }

/-! ### Pure accessors used to state properties of `decode` -/

/-- The big-endian 16-bit integer over bytes `[i, i+2)` of a buffer. -/
def word16At (l : List Nat) (i : Nat) : Nat :=
  256 * l.getD i 0 + l.getD (i + 1) 0

/-- The big-endian 32-bit integer over bytes `[i, i+4)` of a buffer. -/
def word32At (l : List Nat) (i : Nat) : Nat :=
  ((l.getD i 0 * 256 + l.getD (i + 1) 0) * 256 + l.getD (i + 2) 0) * 256
    + l.getD (i + 3) 0

/-- The string the file-format match of main.rs prints for a byte that is
1 or 2. -/
def ffString (b : Nat) : String :=
  if b = 1 then "legacy" else "Write-Ahead Logging"

/-- The string the text-encoding match of main.rs prints for a word that is
1, 2 or 3. -/
def encString (v : Nat) : String :=
  if v = 1 then "UTF-8" else if v = 2 then "UTF-16le" else "UTF-16be"

/-- The `DecodedFields` record that `decode` produces on a buffer that
passes all checks, expressed through the pure accessors. -/
def mkFields (buf : List Nat) : DecodedFields where
  page_size := word16At buf 16
  file_format_write_version := ffString (buf.getD 18 0)
  file_format_read_version := ffString (buf.getD 19 0)
  reserved_bytes_per_page := buf.getD 20 0
  maximum_embedded_payload_fraction := buf.getD 21 0
  minimum_embedded_payload_fraction := buf.getD 22 0
  leaf_payload_fraction := buf.getD 23 0
  file_change_counter := word32At buf 24
  in_header_database_size := word32At buf 28
  freelist_index := word32At buf 32
  freelist_count := word32At buf 36
  schema_cookie := word32At buf 40
  schema_format := word32At buf 44
  default_page_cache_size := word32At buf 48
  btree_largest_page_root := word32At buf 52
  db_encoding := encString (word32At buf 56)
  user_version := word32At buf 60
  incremental_vacuum_mode := word32At buf 64 != 0
  application_id := word32At buf 68
  version_valid_for_number := word32At buf 92
  sqlite_version_number := word32At buf 96

/-! ### Model of `src/lib.rs` -/

/-- lib.rs lines 8-13: the same magic constant, as declared in the library
crate. -/
def MAGIC_HEADER_BYTES : List Nat :=
  [0x53, 0x51, 0x4c, 0x69, 0x74, 0x65, 0x20, 0x66,
   0x6f, 0x72, 0x6d, 0x61, 0x74, 0x20, 0x33, 0x00]

/-- `str::from_utf8` restricted to ASCII input (every byte of the magic
constant is < 128, so UTF-8 decoding is byte-per-character). -/
def asciiString (bs : List Nat) : String :=
  String.mk (bs.map Char.ofNat)

/-- lib.rs lines 15-17: `two_byte_slice_to_u16` — `unwrap`s (panics) unless
the slice has exactly 2 bytes.  Its Rust signature has no error channel,
hence the `Empty` error type. -/
def two_byte_slice_to_u16 (slice : List Nat) : RustOutcome Empty Nat :=
  match slice with
  | [b0, b1] => .ok (256 * b0 + b1)
  | _ => .aborted .unwrapFailed

/-- lib.rs lines 19-21: `four_byte_slice_to_u32` — `unwrap`s (panics) unless
the slice has exactly 4 bytes. -/
def four_byte_slice_to_u32 (slice : List Nat) : RustOutcome Empty Nat :=
  match slice with
  | [b0, b1, b2, b3] => .ok (((b0 * 256 + b1) * 256 + b2) * 256 + b3)
  | _ => .aborted .unwrapFailed

/-- lib.rs lines 32-37: file-format write/read version. -/
inductive FileFormat : Type where
  | Inaccessible
  | Legacy
  | WriteAheadLogging
deriving DecidableEq, Repr

/-- lib.rs lines 45-50: payload fractions. -/
structure Payload : Type where
  leaf_fraction : Nat
  maximum_embedded_fraction : Nat
  minimum_embedded_fraction : Nat
deriving DecidableEq, Repr

/-- lib.rs lines 56-60: the freelist head pointer and count. -/
structure Freelist : Type where
  page_index : Nat
  count : Nat
deriving DecidableEq, Repr

/-- lib.rs lines 75-81: the four defined schema formats. -/
inductive SchemaFormat : Type where
  | Format1
  | Format2
  | Format3
  | Format4
deriving DecidableEq, Repr

/-- lib.rs lines 83-95: schema cookie and format. -/
structure Schema : Type where
  cookie : Nat
  format : SchemaFormat
deriving DecidableEq, Repr

/-- lib.rs lines 102-107: the three legal text encodings. -/
inductive DatabaseTextEncoding : Type where
  | Utf8
  | Utf16le
  | Utf16be
deriving DecidableEq, Repr

/-- lib.rs lines 109-113: vacuum mode. -/
inductive VacuumMode : Type where
  | Auto
  | Incremental
deriving DecidableEq, Repr

/-- lib.rs lines 124-128: vacuum state. -/
structure Vacuum : Type where
  largest_root_btree_page : Nat
  mode : VacuumMode
deriving DecidableEq, Repr

/-- lib.rs lines 136-140: the version-valid-for pair. -/
structure LastUpdate : Type where
  sqlite_version_number : Nat
  version_valid_for : Nat
deriving DecidableEq, Repr

/-- lib.rs lines 142-172: the typed header.  Note that it has no field for
the magic bytes: the magic is a constant of the type, not part of a value. -/
structure SQLite3Header : Type where
  page_size : Nat
  file_format_write_version : FileFormat
  file_format_read_version : FileFormat
  reserved_bytes_per_page : Nat
  payload_fraction : Payload
  file_change_counter : Nat
  in_header_database_size : Nat
  freelist : Freelist
  schema : Schema
  default_page_cache_size : Nat
  database_text_encoding : DatabaseTextEncoding
  user_version : Nat
  vacuum : Option Vacuum
  application_id : Nat
  last_update : LastUpdate

/-- lib.rs line 178: the associated constant `reserved`, twenty zero bytes. -/
def SQLite3Header.reserved : List Nat := List.replicate 20 0

/-- lib.rs lines 184-186: `magic_header_string` returns the UTF-8 decoding
of the crate-level constant `MAGIC_HEADER_BYTES`; it reads nothing from
`self`. -/
def SQLite3Header.magic_header_string (_ : SQLite3Header) : String :=
  asciiString MAGIC_HEADER_BYTES

/-! ### Model of `src/error.rs` -/

/-- error.rs lines 8-12: the two error variants.  (Neither is ever
constructed by `main.rs`.) -/
inductive Error : Type where
  | invalidMagicHeaderString (v : String)
  | invalidPageSize (msg : String)
deriving DecidableEq, Repr

/-- Rust `char::escape_debug`, as used by the `{:?}` formatting of a
`String`: short escapes for quote, backslash, newline, tab and carriage
return, `\u`-escapes for the remaining control characters, and every other
character unchanged. -/
def escapeDebugChar (c : Char) : String :=
  if c = '"' then "\\\""
  else if c = '\\' then "\\\\"
  else if c = '\n' then "\\n"
  else if c = '\t' then "\\t"
  else if c = '\r' then "\\r"
  else if c.toNat < 32 ∨ c.toNat = 127 then
    "\\u\x7b" ++ String.mk (Nat.toDigits 16 c.toNat) ++ "\x7d"
  else String.singleton c

/-- Rust `{:?}` (Debug) formatting of a `String`: the escaped contents
between double quotes. -/
def rustDebugString (s : String) : String :=
  "\"" ++ String.join (s.data.map escapeDebugChar) ++ "\""

/-- error.rs lines 14-26: the `Display` implementation.  The
`InvalidMagicHeaderString` arm writes `expected '{}', found {:?}`; the
`InvalidPageSize` arm writes the empty format string `""`, discarding the
carried message. -/
def Error.display : Error → String
  | .invalidMagicHeaderString v =>
      "expected '" ++ asciiString MAGIC_HEADER_BYTES ++ "', found "
        ++ rustDebugString v
  | .invalidPageSize _ => ""

/-! ### Concrete buffers used as test inputs -/

/-- A 100-byte buffer assembled from the magic constant, a page-size pair,
the two format-version bytes, the payload-fraction constants, and the
remaining four-byte words (schema format, largest-root page, text
encoding, incremental-vacuum word), everything else zero. -/
def mkBuf (page : List Nat) (wv rv : Nat) (schemaFmt largestRoot enc vacFlag : List Nat)
    (reservedRegion : List Nat) : List Nat :=
  MAGIC_HEADER_STRING ++ page ++ [wv, rv, 0, 64, 32, 32]
    ++ List.replicate 20 0
    ++ schemaFmt
    ++ List.replicate 4 0
    ++ largestRoot
    ++ enc
    ++ List.replicate 4 0
    ++ vacFlag
    ++ List.replicate 4 0
    ++ reservedRegion
    ++ List.replicate 8 0

/-- A fully valid 100-byte header: page size 512, both format versions
legacy, schema format 1, UTF-8 encoding, no vacuum, reserved region zero. -/
def validBuf : List Nat :=
  mkBuf [2, 0] 1 1 [0, 0, 0, 1] [0, 0, 0, 0] [0, 0, 0, 1] [0, 0, 0, 0]
    (List.replicate 20 0)

/-- `validBuf` with the page-size bytes replaced. -/
def pageBuf (page : List Nat) : List Nat :=
  mkBuf page 1 1 [0, 0, 0, 1] [0, 0, 0, 0] [0, 0, 0, 1] [0, 0, 0, 0]
    (List.replicate 20 0)

/-- A buffer that is valid except that the largest-root-btree-page word
(bytes [52,56)) is zero while the incremental-vacuum word (bytes [64,68))
is 1 — the combination the format documentation forbids. -/
def vacuumMismatchBuf : List Nat :=
  mkBuf [2, 0] 1 1 [0, 0, 0, 1] [0, 0, 0, 0] [0, 0, 0, 1] [0, 0, 0, 1]
    (List.replicate 20 0)

/-- A buffer that is valid except that byte 18 (file-format write version)
is 3. -/
def writeVersion3Buf : List Nat :=
  mkBuf [2, 0] 3 1 [0, 0, 0, 1] [0, 0, 0, 0] [0, 0, 0, 1] [0, 0, 0, 0]
    (List.replicate 20 0)

/-- A buffer that is valid except that byte 19 (file-format read version)
is 3. -/
def readVersion3Buf : List Nat :=
  mkBuf [2, 0] 1 3 [0, 0, 0, 1] [0, 0, 0, 0] [0, 0, 0, 1] [0, 0, 0, 0]
    (List.replicate 20 0)

/-- A buffer that is valid except that the text-encoding word (bytes
[56,60)) is 4. -/
def encoding4Buf : List Nat :=
  mkBuf [2, 0] 1 1 [0, 0, 0, 1] [0, 0, 0, 0] [0, 0, 0, 4] [0, 0, 0, 0]
    (List.replicate 20 0)

/-- A buffer that is valid except that the first reserved byte (offset 72)
is 1. -/
def badReservedBuf : List Nat :=
  mkBuf [2, 0] 1 1 [0, 0, 0, 1] [0, 0, 0, 0] [0, 0, 0, 1] [0, 0, 0, 0]
    (1 :: List.replicate 19 0)

/-! ### Basic lemmas about `RustOutcome` -/

namespace RustOutcome

@[simp] theorem ok_bind (a : α) (f : α → RustOutcome ε β) :
    (RustOutcome.ok a >>= f) = f a := rfl

@[simp] theorem err_bind (e : ε) (f : α → RustOutcome ε β) :
    (RustOutcome.err e >>= f) = RustOutcome.err e := rfl

@[simp] theorem aborted_bind (s : AbortSite) (f : α → RustOutcome ε β) :
    (RustOutcome.aborted s >>= f) = RustOutcome.aborted s := rfl

@[simp] theorem pure_eq_ok (a : α) : (pure a : RustOutcome ε α) = .ok a := rfl

@[simp] theorem isOk_ok (a : α) : (RustOutcome.ok a : RustOutcome ε α).isOk = true := rfl

@[simp] theorem isOk_err (e : ε) : (RustOutcome.err e : RustOutcome ε α).isOk = false := rfl

@[simp] theorem isOk_aborted (s : AbortSite) :
    (RustOutcome.aborted s : RustOutcome ε α).isOk = false := rfl

@[simp] theorem isErr_ok (a : α) : (RustOutcome.ok a : RustOutcome ε α).isErr = false := rfl

@[simp] theorem isErr_err (e : ε) : (RustOutcome.err e : RustOutcome ε α).isErr = true := rfl

@[simp] theorem isErr_aborted (s : AbortSite) :
    (RustOutcome.aborted s : RustOutcome ε α).isErr = false := rfl

/-- Bind distributes over an `if`. -/
@[simp] theorem ite_bind (c : Prop) [Decidable c] (x y : RustOutcome ε α)
    (f : α → RustOutcome ε β) :
    ((if c then x else y) >>= f) = if c then x >>= f else y >>= f := by
  split <;> rfl

/-- If a sequenced computation produced a value, its first step produced a
value that the continuation then accepted. -/
theorem isOk_bind {x : RustOutcome ε α} {f : α → RustOutcome ε β}
    (h : (x >>= f).isOk = true) : ∃ a, x = .ok a ∧ (f a).isOk = true := by
  cases x with
  | ok a => exact ⟨a, rfl, h⟩
  | err e => simp [isOk, Bind.bind, RustOutcome.bind] at h
  | aborted s => simp [isOk, Bind.bind, RustOutcome.bind] at h

end RustOutcome

/-! ### List helper lemmas -/

/-- Dropping at an in-range position exposes the element there. -/
theorem drop_eq_getD_cons :
    ∀ (l : List Nat) (a : Nat), a < l.length →
      l.drop a = l.getD a 0 :: l.drop (a + 1) := by
  intro l
  induction l with
  | nil => intro a h; simp at h
  | cons x t ih =>
    intro a h
    cases a with
    | zero => simp
    | succ j =>
      have := ih j (by simpa using h)
      simpa using this

/-- A two-byte range is the list of its two elements. -/
theorem bytesAt_pair (l : List Nat) (a b : Nat) (hb : b = a + 2)
    (h : b ≤ l.length) : bytesAt l a b = [l.getD a 0, l.getD (a + 1) 0] := by
  subst hb
  unfold bytesAt
  rw [drop_eq_getD_cons l a (by omega), drop_eq_getD_cons l (a + 1) (by omega)]
  simp

/-- A four-byte range is the list of its four elements. -/
theorem bytesAt_quad (l : List Nat) (a b : Nat) (hb : b = a + 4)
    (h : b ≤ l.length) :
    bytesAt l a b =
      [l.getD a 0, l.getD (a + 1) 0, l.getD (a + 2) 0, l.getD (a + 3) 0] := by
  subst hb
  unfold bytesAt
  rw [drop_eq_getD_cons l a (by omega), drop_eq_getD_cons l (a + 1) (by omega),
    drop_eq_getD_cons l (a + 2) (by omega), drop_eq_getD_cons l (a + 3) (by omega)]
  simp [show a + 1 + 1 = a + 2 from by omega, show a + 2 + 1 = a + 3 from by omega]

/-- The all-zero test on a byte range, element-wise. -/
theorem all_zero_take_drop :
    ∀ (n : Nat) (a : Nat) (l : List Nat), a + n ≤ l.length →
      (((l.drop a).take n).all (fun v => v == 0) = true ↔
        ∀ i, i < n → l.getD (a + i) 0 = 0) := by
  intro n
  induction n with
  | zero => intro a l h; simp
  | succ m ih =>
    intro a l h
    rw [drop_eq_getD_cons l a (by omega)]
    have hrest : (l.drop (a + 1)).take m = ((l.drop (a + 1)).take m) := rfl
    have ihm := ih (a + 1) l (by omega)
    constructor
    · intro hall i hi
      have hall' := hall
      simp only [List.take_succ_cons, List.all_cons, Bool.and_eq_true, beq_iff_eq] at hall'
      rcases hall' with ⟨h0, hrest'⟩
      cases i with
      | zero => simpa using h0
      | succ j =>
        have := (ihm.mp hrest') j (by omega)
        simpa [show a + (j + 1) = a + 1 + j from by omega] using this
    · intro hptw
      simp only [List.take_succ_cons, List.all_cons, Bool.and_eq_true, beq_iff_eq]
      refine ⟨by simpa using hptw 0 (by omega), ihm.mpr ?_⟩
      intro j hj
      have := hptw (j + 1) (by omega)
      simpa [show a + (j + 1) = a + 1 + j from by omega] using this

/-- The reserved-region test of `decode`, element-wise. -/
theorem reserved_all_zero_iff (l : List Nat) (h : 92 ≤ l.length) :
    ((bytesAt l 72 92).all (fun v => v == 0) = true ↔
      ∀ i, i < 20 → l.getD (72 + i) 0 = 0) := by
  have := all_zero_take_drop 20 72 l (by omega)
  simpa [bytesAt] using this

/-! ### Step lemmas for the decode walk -/

theorem checkedSlice_ok (l : List Nat) (a b : Nat) (h : b ≤ l.length) :
    checkedSlice l a b = .ok (bytesAt l a b) := by
  simp [checkedSlice, h]

theorem checkedByte_ok (l : List Nat) (i : Nat) (h : i < l.length) :
    checkedByte l i = .ok (l.getD i 0) := by
  simp [checkedByte, h]

theorem checkedSlice_eq_ok_imp {l : List Nat} {a b : Nat} {s : List Nat}
    (h : checkedSlice l a b = .ok s) : b ≤ l.length := by
  by_cases hb : b ≤ l.length
  · exact hb
  · simp [checkedSlice, hb] at h

theorem fileFormatMatch_valid {b : Nat} (h : b = 1 ∨ b = 2) (site : AbortSite) :
    fileFormatMatch b site = .ok (ffString b) := by
  rcases h with h | h <;> simp [fileFormatMatch, ffString, h]

theorem textEncodingMatch_valid {v : Nat} (h : v = 1 ∨ v = 2 ∨ v = 3) :
    textEncodingMatch v = .ok (encString v) := by
  rcases h with h | h | h <;> simp [textEncodingMatch, encString, h]

theorem textEncodingMatch_invalid {v : Nat} (h1 : v ≠ 1) (h2 : v ≠ 2) (h3 : v ≠ 3) :
    textEncodingMatch v = .aborted .unimplementedTextEncoding := by
  simp [textEncodingMatch, h1, h2, h3]

theorem contains_schema_valid {v : Nat} (h : v = 1 ∨ v = 2 ∨ v = 3 ∨ v = 4) :
    ([1, 2, 3, 4].contains v) = true := by
  rcases h with h | h | h | h <;> subst h <;> decide

/-- Master characterization: on a 100-byte buffer whose magic, page size,
format versions, payload fractions, schema format and text encoding are
all valid, `decode` reduces to the reserved-region test: it produces
`mkFields` when the twenty reserved bytes are zero and panics at the
reserved-bytes assertion otherwise. -/
theorem decode_characterization (buf : List Nat)
    (hlen : buf.length = 100)
    (hmagic : bytesAt buf 0 16 = MAGIC_HEADER_STRING)
    (hpow : u16IsPowerOfTwo (word16At buf 16) = true)
    (h511 : 511 < word16At buf 16)
    (h32769 : word16At buf 16 < 32769)
    (hwv : buf.getD 18 0 = 1 ∨ buf.getD 18 0 = 2)
    (hrv : buf.getD 19 0 = 1 ∨ buf.getD 19 0 = 2)
    (h21 : buf.getD 21 0 = 64)
    (h22 : buf.getD 22 0 = 32)
    (h23 : buf.getD 23 0 = 32)
    (hsf : word32At buf 44 = 1 ∨ word32At buf 44 = 2 ∨ word32At buf 44 = 3 ∨
      word32At buf 44 = 4)
    (henc : word32At buf 56 = 1 ∨ word32At buf 56 = 2 ∨ word32At buf 56 = 3) :
    decode buf =
      if (bytesAt buf 72 92).all (fun v => v == 0)
      then .ok (mkFields buf) else .aborted .assertReservedZero := by
  have emagic : (bytesAt buf 0 16 == MAGIC_HEADER_STRING) = true := by
    rw [hmagic]; exact beq_self_eq_true _
  have epage : bytesAt buf 16 18 = [buf.getD 16 0, buf.getD 17 0] := by
    simpa using bytesAt_pair buf 16 18 (by omega) (by omega)
  have epow : u16IsPowerOfTwo (256 * buf.getD 16 0 + buf.getD 17 0) = true := by
    simpa [word16At] using hpow
  have e511 : decide (256 * buf.getD 16 0 + buf.getD 17 0 > 511) = true := by
    have : (511 : Nat) < 256 * buf.getD 16 0 + buf.getD 17 0 := by
      simpa [word16At] using h511
    simpa using this
  have e32769 : decide (256 * buf.getD 16 0 + buf.getD 17 0 < 32769) = true := by
    have : 256 * buf.getD 16 0 + buf.getD 17 0 < 32769 := by
      simpa [word16At] using h32769
    simpa using this
  have ewv := fileFormatMatch_valid hwv AbortSite.unimplementedWriteVersion
  have erv := fileFormatMatch_valid hrv AbortSite.unimplementedReadVersion
  have e21 : (buf.getD 21 0 == 64) = true := by rw [h21]; rfl
  have e22 : (buf.getD 22 0 == 32) = true := by rw [h22]; rfl
  have e23 : (buf.getD 23 0 == 32) = true := by rw [h23]; rfl
  have equad : ∀ a b : Nat, b = a + 4 → b ≤ 100 →
      bytesAt buf a b =
        [buf.getD a 0, buf.getD (a + 1) 0, buf.getD (a + 2) 0, buf.getD (a + 3) 0] :=
    fun a b hb h => bytesAt_quad buf a b hb (by omega)
  have esf : ([1, 2, 3, 4].contains
      (((buf.getD 44 0 * 256 + buf.getD 45 0) * 256 + buf.getD 46 0) * 256
        + buf.getD 47 0)) = true := by
    have := contains_schema_valid hsf
    simpa [word32At] using this
  have eenc := textEncodingMatch_valid henc
  have p511 : 511 < 256 * buf.getD 16 0 + buf.getD 17 0 := by
    simpa [word16At] using h511
  have p32769 : 256 * buf.getD 16 0 + buf.getD 17 0 < 32769 := by
    simpa [word16At] using h32769
  have psf : ((buf.getD 44 0 * 256 + buf.getD 45 0) * 256 + buf.getD 46 0) * 256
        + buf.getD 47 0 = 1 ∨
      ((buf.getD 44 0 * 256 + buf.getD 45 0) * 256 + buf.getD 46 0) * 256
        + buf.getD 47 0 = 2 ∨
      ((buf.getD 44 0 * 256 + buf.getD 45 0) * 256 + buf.getD 46 0) * 256
        + buf.getD 47 0 = 3 ∨
      ((buf.getD 44 0 * 256 + buf.getD 45 0) * 256 + buf.getD 46 0) * 256
        + buf.getD 47 0 = 4 := by
    simpa [word32At] using hsf
  have eenc2 : textEncodingMatch (((buf.getD 56 0 * 256 + buf.getD 57 0) * 256
        + buf.getD 58 0) * 256 + buf.getD 59 0) =
      RustOutcome.ok (encString (((buf.getD 56 0 * 256 + buf.getD 57 0) * 256
        + buf.getD 58 0) * 256 + buf.getD 59 0)) := by
    simpa [word32At] using eenc
  simp only [hlen] at epage
  simp [hlen] at epow p511 p32769 ewv erv psf eenc2
  have h21g : buf.getD 21 0 = 64 := h21
  have h22g : buf.getD 22 0 = 32 := h22
  have h23g : buf.getD 23 0 = 32 := h23
  simp [hlen] at h21g h22g h23g
  cases hres : (bytesAt buf 72 92).all (fun v => v == 0) with
  | false =>
    have hres2 : ¬ ∀ x ∈ bytesAt buf 72 92, x = 0 := by
      intro hall
      have h2 : (bytesAt buf 72 92).all (fun v => v == 0) = true := by
        simpa using hall
      rw [h2] at hres
      simp at hres
    simp [decode, checkedSlice, checkedByte, hlen, rustAssert, hmagic, epage,
      u16FromBeSlice, epow, p511, p32769, ewv, erv, h21g, h22g, h23g, equad,
      slice_to_word, psf, eenc2, hres2]
  | true =>
    have hres2 : ∀ x ∈ bytesAt buf 72 92, x = 0 := by simpa using hres
    simp [decode, checkedSlice, checkedByte, hlen, rustAssert, hmagic, epage,
      u16FromBeSlice, epow, p511, p32769, ewv, erv, h21g, h22g, h23g, equad,
      slice_to_word, psf, eenc2, hres2, mkFields, word16At, word32At]
    exact hres2

/-- On a 100-byte buffer whose fields before the text encoding are valid,
an encoding word outside {1,2,3} drives `decode` into the
`unimplemented!()` panic of the text-encoding match. -/
theorem decode_textEncoding_aborts (buf : List Nat)
    (hlen : buf.length = 100)
    (hmagic : bytesAt buf 0 16 = MAGIC_HEADER_STRING)
    (hpow : u16IsPowerOfTwo (word16At buf 16) = true)
    (h511 : 511 < word16At buf 16)
    (h32769 : word16At buf 16 < 32769)
    (hwv : buf.getD 18 0 = 1 ∨ buf.getD 18 0 = 2)
    (hrv : buf.getD 19 0 = 1 ∨ buf.getD 19 0 = 2)
    (h21 : buf.getD 21 0 = 64)
    (h22 : buf.getD 22 0 = 32)
    (h23 : buf.getD 23 0 = 32)
    (hsf : word32At buf 44 = 1 ∨ word32At buf 44 = 2 ∨ word32At buf 44 = 3 ∨
      word32At buf 44 = 4)
    (henc1 : word32At buf 56 ≠ 1) (henc2 : word32At buf 56 ≠ 2)
    (henc3 : word32At buf 56 ≠ 3) :
    decode buf = .aborted .unimplementedTextEncoding := by
  have epage : bytesAt buf 16 18 = [buf.getD 16 0, buf.getD 17 0] := by
    simpa using bytesAt_pair buf 16 18 (by omega) (by omega)
  have epow : u16IsPowerOfTwo (256 * buf.getD 16 0 + buf.getD 17 0) = true := by
    simpa [word16At] using hpow
  have p511 : 511 < 256 * buf.getD 16 0 + buf.getD 17 0 := by
    simpa [word16At] using h511
  have p32769 : 256 * buf.getD 16 0 + buf.getD 17 0 < 32769 := by
    simpa [word16At] using h32769
  have ewv := fileFormatMatch_valid hwv AbortSite.unimplementedWriteVersion
  have erv := fileFormatMatch_valid hrv AbortSite.unimplementedReadVersion
  have equad : ∀ a b : Nat, b = a + 4 → b ≤ 100 →
      bytesAt buf a b =
        [buf.getD a 0, buf.getD (a + 1) 0, buf.getD (a + 2) 0, buf.getD (a + 3) 0] :=
    fun a b hb h => bytesAt_quad buf a b hb (by omega)
  have psf : ((buf.getD 44 0 * 256 + buf.getD 45 0) * 256 + buf.getD 46 0) * 256
        + buf.getD 47 0 = 1 ∨
      ((buf.getD 44 0 * 256 + buf.getD 45 0) * 256 + buf.getD 46 0) * 256
        + buf.getD 47 0 = 2 ∨
      ((buf.getD 44 0 * 256 + buf.getD 45 0) * 256 + buf.getD 46 0) * 256
        + buf.getD 47 0 = 3 ∨
      ((buf.getD 44 0 * 256 + buf.getD 45 0) * 256 + buf.getD 46 0) * 256
        + buf.getD 47 0 = 4 := by
    simpa [word32At] using hsf
  have eenc2 : textEncodingMatch (((buf.getD 56 0 * 256 + buf.getD 57 0) * 256
        + buf.getD 58 0) * 256 + buf.getD 59 0) =
      RustOutcome.aborted .unimplementedTextEncoding := by
    have := textEncodingMatch_invalid henc1 henc2 henc3
    simpa [word32At] using this
  have h21g : buf.getD 21 0 = 64 := h21
  have h22g : buf.getD 22 0 = 32 := h22
  have h23g : buf.getD 23 0 = 32 := h23
  simp only [hlen] at epage
  simp [hlen] at epow p511 p32769 ewv erv psf eenc2
  simp [hlen] at h21g h22g h23g
  simp [decode, checkedSlice, checkedByte, hlen, rustAssert, hmagic, epage,
    u16FromBeSlice, epow, p511, p32769, ewv, erv, h21g, h22g, h23g, equad,
    slice_to_word, psf, eenc2]

/-- A buffer of length at least 16 whose first sixteen bytes are not the
magic constant makes `decode` panic at the very first assertion; the
result is the same whatever the buffer holds at offset 16 and beyond. -/
theorem decode_magic_mismatch (buf : List Nat) (h16 : 16 ≤ buf.length)
    (hm : bytesAt buf 0 16 ≠ MAGIC_HEADER_STRING) :
    decode buf = .aborted .assertMagicHeader := by
  simp [decode, checkedSlice, h16, rustAssert, hm]

/-! ### `decode` reads at most the first 100 bytes -/

theorem bytesAt_take (l : List Nat) (n a b : Nat) (hb : b ≤ n) :
    bytesAt (l.take n) a b = bytesAt l a b := by
  apply List.ext_getElem?
  intro i
  simp only [bytesAt, List.getElem?_take, List.getElem?_drop]
  split_ifs with h1 h2 <;> first
    | rfl
    | omega

theorem checkedSlice_take (l : List Nat) (a b : Nat) (hb : b ≤ 100) :
    checkedSlice (l.take 100) a b = checkedSlice l a b := by
  unfold checkedSlice
  by_cases h : b ≤ l.length
  · rw [if_pos (by simp [List.length_take]; omega), if_pos h,
      bytesAt_take l 100 a b hb]
  · rw [if_neg (by simp [List.length_take]; omega), if_neg h]

theorem checkedByte_take (l : List Nat) (i : Nat) (hi : i < 100) :
    checkedByte (l.take 100) i = checkedByte l i := by
  unfold checkedByte
  by_cases h : i < l.length
  · rw [if_pos (by simp [List.length_take]; omega), if_pos h]
    have : (l.take 100).getD i 0 = l.getD i 0 := by
      rw [List.getD_eq_getElem?_getD, List.getD_eq_getElem?_getD,
        List.getElem?_take, if_pos hi]
    rw [this]
  · rw [if_neg (by simp [List.length_take]; omega), if_neg h]

/-! ### `decode` never succeeds on a short buffer -/

theorem decode_isOk_le {buf : List Nat} (h : (decode buf).isOk = true) :
    100 ≤ buf.length := by
  unfold decode at h
  iterate 48 obtain ⟨_, -, h⟩ := RustOutcome.isOk_bind h
  obtain ⟨_, hl, -⟩ := RustOutcome.isOk_bind h
  exact checkedSlice_eq_ok_imp hl

/-! ### Length behaviour of the codecs -/

theorem slice_to_word_wrong_length {s : List Nat} (h : s.length ≠ 4) :
    slice_to_word s = .err TryFromSliceError.mk := by
  rcases s with _ | ⟨b0, _ | ⟨b1, _ | ⟨b2, _ | ⟨b3, _ | ⟨b4, t⟩⟩⟩⟩⟩ <;>
    first
      | rfl
      | simp at h

theorem slice_to_word_len_four {s : List Nat} (h : s.length = 4) :
    (slice_to_word s).isErr = false := by
  rcases s with _ | ⟨b0, _ | ⟨b1, _ | ⟨b2, _ | ⟨b3, _ | ⟨b4, t⟩⟩⟩⟩⟩ <;>
    first
      | rfl
      | simp at h

theorem two_byte_slice_to_u16_wrong_length {s : List Nat} (h : s.length ≠ 2) :
    two_byte_slice_to_u16 s = .aborted .unwrapFailed := by
  rcases s with _ | ⟨b0, _ | ⟨b1, _ | ⟨b2, t⟩⟩⟩ <;>
    first
      | rfl
      | simp at h

/-! ### Claim theorems -/

/-- Claim C1 (code bug in the page-size validation): the source has no
special case for the raw big-endian 16-bit value 1 (which the format — and
the documentation quoted in lib.rs — defines as page size 65536): on an
otherwise valid buffer with page-size bytes `0x00 0x01` the decode walk
panics at `assert!(page_size > 511)` instead of succeeding.  The raw
values 512 and 32768 succeed, and 511 and 32769 fail at the
power-of-two assertion, as the claim expects. -/
theorem c1_page_size_raw_one_rejected :
    decode (pageBuf [0, 1]) = .aborted .assertGt511 ∧
    (decode (pageBuf [2, 0])).isOk = true ∧
    (decode (pageBuf [128, 0])).isOk = true ∧
    decode (pageBuf [1, 255]) = .aborted .assertPow2 ∧
    decode (pageBuf [128, 1]) = .aborted .assertPow2 := by
  decide

/-- Claim C2 (code bug in the vacuum handling): `main` reads the
largest-root word and the incremental-vacuum word but never checks them
against each other and never builds a vacuum value: on a buffer with
largest-root 0 and vacuum word 1 — which the format documentation quoted
in lib.rs forbids — the decode walk succeeds, reporting
`incremental_vacuum_mode = true`. -/
theorem c2_vacuum_mismatch_accepted :
    decode vacuumMismatchBuf = .ok
      { page_size := 512
        file_format_write_version := "legacy"
        file_format_read_version := "legacy"
        reserved_bytes_per_page := 0
        maximum_embedded_payload_fraction := 64
        minimum_embedded_payload_fraction := 32
        leaf_payload_fraction := 32
        file_change_counter := 0
        in_header_database_size := 0
        freelist_index := 0
        freelist_count := 0
        schema_cookie := 0
        schema_format := 1
        default_page_cache_size := 0
        btree_largest_page_root := 0
        db_encoding := "UTF-8"
        user_version := 0
        incremental_vacuum_mode := true
        application_id := 0
        version_valid_for_number := 0
        sqlite_version_number := 0 } := by
  decide

/-- Claim C3 (code bug in the file-format decoding): lib.rs defines the
`Inaccessible` fallback variant, but `main` hits `unimplemented!()` — a
panic, not a valid decode outcome — for any format-version byte other
than 1 or 2, at byte 18 and byte 19 alike. -/
theorem c3_file_format_other_panics :
    decode writeVersion3Buf = .aborted .unimplementedWriteVersion ∧
    decode readVersion3Buf = .aborted .unimplementedReadVersion := by
  decide

/-- Claim C4, counterexample: on an all-zero 100-byte buffer the decode
walk fails by the magic assertion panic; it does not return any error
value, so it cannot return `InvalidMagicHeaderString` with the observed
bytes. -/
theorem c4_magic_failure_not_error_value :
    decode (List.replicate 100 0) = .aborted .assertMagicHeader ∧
    (decode (List.replicate 100 0)).isErr = false := by
  decide

/-- Claim C4, amended: for every buffer of length at least 16 whose first
sixteen bytes differ from the magic constant, decode fails at the magic
assertion (a panic, carrying no bytes — not the `InvalidMagicHeaderString`
error value); the result is the same whatever bytes stand at offset 16
and beyond, so none of them is inspected. -/
theorem c4_magic_mismatch_aborts_early (buf : List Nat) (h16 : 16 ≤ buf.length)
    (hm : bytesAt buf 0 16 ≠ MAGIC_HEADER_STRING) :
    decode buf = .aborted .assertMagicHeader :=
  decode_magic_mismatch buf h16 hm

/-- Witness for C4 at a concrete all-ones buffer. -/
theorem c4_magic_mismatch_aborts_early_witness :
    decode (List.replicate 100 1) = .aborted .assertMagicHeader :=
  c4_magic_mismatch_aborts_early (List.replicate 100 1) (by decide) (by decide)

/-- Claim C5, counterexample: on a 99-byte buffer (a valid buffer truncated
by one byte) the decode walk panics at a slice indexing — it neither
returns a value nor returns an error; and the library's 16-bit codec
panics on a 3-byte slice instead of returning a length-mismatch error. -/
theorem c5_short_buffer_panics_concrete :
    decode (validBuf.take 99) = .aborted .sliceOutOfBounds ∧
    (decode (validBuf.take 99)).isErr = false ∧
    (decode (validBuf.take 99)).isOk = false ∧
    two_byte_slice_to_u16 [0, 0, 0] = .aborted .unwrapFailed := by
  decide

/-- Claim C5, amended: decode never succeeds on a buffer shorter than 100
bytes, but the failure is a panic, not a returned error.  `slice_to_word`
(main.rs) does return the distinct `TryFromSliceError` exactly when its
slice length is not 4; `two_byte_slice_to_u16` (lib.rs) panics via
`unwrap` on any length other than 2 instead of returning an error. -/
theorem c5_codec_length_behaviour :
    (∀ buf : List Nat, buf.length < 100 → (decode buf).isOk = false) ∧
    (∀ s : List Nat, s.length ≠ 4 → slice_to_word s = .err TryFromSliceError.mk) ∧
    (∀ s : List Nat, s.length = 4 → (slice_to_word s).isErr = false) ∧
    (∀ s : List Nat, s.length ≠ 2 →
      two_byte_slice_to_u16 s = .aborted .unwrapFailed) := by
  refine ⟨?_, ?_, ?_, ?_⟩
  · intro buf hlt
    cases hok : (decode buf).isOk with
    | false => rfl
    | true => exact absurd (decode_isOk_le hok) (by omega)
  · intro s h
    exact slice_to_word_wrong_length h
  · intro s h
    exact slice_to_word_len_four h
  · intro s h
    exact two_byte_slice_to_u16_wrong_length h

/-- Witness for C5 at concrete inputs. -/
theorem c5_codec_length_behaviour_witness :
    (decode (List.replicate 99 0)).isOk = false ∧
    slice_to_word [0, 0, 0] = .err TryFromSliceError.mk ∧
    (slice_to_word [0, 0, 0, 0]).isErr = false ∧
    two_byte_slice_to_u16 [0] = .aborted .unwrapFailed :=
  ⟨c5_codec_length_behaviour.1 _ (by decide),
   c5_codec_length_behaviour.2.1 _ (by decide),
   c5_codec_length_behaviour.2.2.1 _ (by decide),
   c5_codec_length_behaviour.2.2.2 _ (by decide)⟩

/-- Claim C6, counterexample: on a buffer that is valid except for a
text-encoding word of 4, the decode walk panics at the text-encoding
`unimplemented!()`; it does not return an error value, and no
`InvalidTextEncoding` error exists in the code to carry the value. -/
theorem c6_text_encoding_failure_is_panic :
    decode encoding4Buf = .aborted .unimplementedTextEncoding ∧
    (decode encoding4Buf).isErr = false := by
  decide

/-- Claim C6, amended: on a 100-byte buffer whose other fields are valid,
decoding the big-endian 32-bit word at bytes [56,60) succeeds exactly for
the values 1, 2, 3 — printed as UTF-8, UTF-16le, UTF-16be respectively —
while any other value makes decode fail by the `unimplemented!()` panic,
which carries no value (there is no `InvalidTextEncoding` error). -/
theorem c6_text_encoding_amended (buf : List Nat)
    (hlen : buf.length = 100)
    (hmagic : bytesAt buf 0 16 = MAGIC_HEADER_STRING)
    (hpow : u16IsPowerOfTwo (word16At buf 16) = true)
    (h511 : 511 < word16At buf 16)
    (h32769 : word16At buf 16 < 32769)
    (hwv : buf.getD 18 0 = 1 ∨ buf.getD 18 0 = 2)
    (hrv : buf.getD 19 0 = 1 ∨ buf.getD 19 0 = 2)
    (h21 : buf.getD 21 0 = 64)
    (h22 : buf.getD 22 0 = 32)
    (h23 : buf.getD 23 0 = 32)
    (hsf : word32At buf 44 = 1 ∨ word32At buf 44 = 2 ∨ word32At buf 44 = 3 ∨
      word32At buf 44 = 4)
    (hres : (bytesAt buf 72 92).all (fun v => v == 0) = true) :
    ((word32At buf 56 = 1 ∨ word32At buf 56 = 2 ∨ word32At buf 56 = 3) →
      decode buf = .ok (mkFields buf)) ∧
    (word32At buf 56 = 1 → (mkFields buf).db_encoding = "UTF-8") ∧
    (word32At buf 56 = 2 → (mkFields buf).db_encoding = "UTF-16le") ∧
    (word32At buf 56 = 3 → (mkFields buf).db_encoding = "UTF-16be") ∧
    (word32At buf 56 ≠ 1 → word32At buf 56 ≠ 2 → word32At buf 56 ≠ 3 →
      decode buf = .aborted .unimplementedTextEncoding) := by
  refine ⟨?_, ?_, ?_, ?_, ?_⟩
  · intro henc
    rw [decode_characterization buf hlen hmagic hpow h511 h32769 hwv hrv h21
      h22 h23 hsf henc, if_pos hres]
  · intro h1
    simp [mkFields, encString, h1]
  · intro h2
    simp [mkFields, encString, h2]
  · intro h3
    simp [mkFields, encString, h3]
  · intro h1 h2 h3
    exact decode_textEncoding_aborts buf hlen hmagic hpow h511 h32769 hwv hrv
      h21 h22 h23 hsf h1 h2 h3

/-- Witness for C6 at the fully valid buffer (text encoding 1). -/
theorem c6_text_encoding_amended_witness :
    decode validBuf = .ok (mkFields validBuf) :=
  (c6_text_encoding_amended validBuf (by decide) (by decide) (by decide)
    (by decide) (by decide) (by decide) (by decide) (by decide) (by decide)
    (by decide) (by decide) (by decide)).1 (by decide)

/-- Claim C7, counterexample: on a buffer that is valid except for a
nonzero byte at offset 72, the decode walk panics at the reserved-bytes
assertion; it does not return an error value (no `ReservedBytesNotZero`
error exists in the code). -/
theorem c7_reserved_failure_is_panic :
    decode badReservedBuf = .aborted .assertReservedZero ∧
    (decode badReservedBuf).isErr = false := by
  decide

/-- Claim C7, amended: on a 100-byte buffer whose other fields are valid,
a nonzero byte anywhere in [72,92) makes decode fail by the
reserved-bytes assertion panic (not a `ReservedBytesNotZero` error value,
which does not exist in the code), regardless of which byte it is; with
all twenty bytes zero the walk succeeds. -/
theorem c7_reserved_region_amended (buf : List Nat)
    (hlen : buf.length = 100)
    (hmagic : bytesAt buf 0 16 = MAGIC_HEADER_STRING)
    (hpow : u16IsPowerOfTwo (word16At buf 16) = true)
    (h511 : 511 < word16At buf 16)
    (h32769 : word16At buf 16 < 32769)
    (hwv : buf.getD 18 0 = 1 ∨ buf.getD 18 0 = 2)
    (hrv : buf.getD 19 0 = 1 ∨ buf.getD 19 0 = 2)
    (h21 : buf.getD 21 0 = 64)
    (h22 : buf.getD 22 0 = 32)
    (h23 : buf.getD 23 0 = 32)
    (hsf : word32At buf 44 = 1 ∨ word32At buf 44 = 2 ∨ word32At buf 44 = 3 ∨
      word32At buf 44 = 4)
    (henc : word32At buf 56 = 1 ∨ word32At buf 56 = 2 ∨ word32At buf 56 = 3) :
    ((∃ i, i < 20 ∧ buf.getD (72 + i) 0 ≠ 0) →
      decode buf = .aborted .assertReservedZero) ∧
    ((∀ i, i < 20 → buf.getD (72 + i) 0 = 0) →
      decode buf = .ok (mkFields buf)) := by
  have hchar := decode_characterization buf hlen hmagic hpow h511 h32769 hwv
    hrv h21 h22 h23 hsf henc
  constructor
  · rintro ⟨i, hi, hne⟩
    have hall : (bytesAt buf 72 92).all (fun v => v == 0) = false := by
      cases hq : (bytesAt buf 72 92).all (fun v => v == 0) with
      | false => rfl
      | true =>
        exact absurd ((reserved_all_zero_iff buf (by omega)).mp hq i hi) hne
    rw [hchar]
    simp [hall]
  · intro hz
    have hall : (bytesAt buf 72 92).all (fun v => v == 0) = true :=
      (reserved_all_zero_iff buf (by omega)).mpr hz
    rw [hchar, if_pos hall]

/-- Witness for C7 at a concrete buffer whose last reserved byte is 7. -/
theorem c7_reserved_region_amended_witness :
    decode (mkBuf [2, 0] 1 1 [0, 0, 0, 1] [0, 0, 0, 0] [0, 0, 0, 1]
        [0, 0, 0, 0] (List.replicate 19 0 ++ [7])) =
      .aborted .assertReservedZero :=
  (c7_reserved_region_amended
    (mkBuf [2, 0] 1 1 [0, 0, 0, 1] [0, 0, 0, 0] [0, 0, 0, 1] [0, 0, 0, 0]
      (List.replicate 19 0 ++ [7]))
    (by decide) (by decide) (by decide) (by decide) (by decide) (by decide)
    (by decide) (by decide) (by decide) (by decide) (by decide)
    (by decide)).1 ⟨19, by decide, by decide⟩

/-- Claim C8: the decode walk is a total function of at most the first 100
bytes of its input: on every buffer it equals its own run on the
100-byte truncation, so it terminates after a bounded scan and no byte at
offset 100 or beyond influences the result. -/
theorem c8_decode_bounded_scan (buf : List Nat) :
    decode buf = decode (buf.take 100) := by
  have s1 := checkedSlice_take buf 0 16 (by omega)
  have s2 := checkedSlice_take buf 16 18 (by omega)
  have s3 := checkedSlice_take buf 24 28 (by omega)
  have s4 := checkedSlice_take buf 28 32 (by omega)
  have s5 := checkedSlice_take buf 32 36 (by omega)
  have s6 := checkedSlice_take buf 36 40 (by omega)
  have s7 := checkedSlice_take buf 40 44 (by omega)
  have s8 := checkedSlice_take buf 44 48 (by omega)
  have s9 := checkedSlice_take buf 48 52 (by omega)
  have s10 := checkedSlice_take buf 52 56 (by omega)
  have s11 := checkedSlice_take buf 56 60 (by omega)
  have s12 := checkedSlice_take buf 60 64 (by omega)
  have s13 := checkedSlice_take buf 64 68 (by omega)
  have s14 := checkedSlice_take buf 68 72 (by omega)
  have s15 := checkedSlice_take buf 72 92 (by omega)
  have s16 := checkedSlice_take buf 92 96 (by omega)
  have s17 := checkedSlice_take buf 96 100 (by omega)
  have b1 := checkedByte_take buf 18 (by omega)
  have b2 := checkedByte_take buf 19 (by omega)
  have b3 := checkedByte_take buf 20 (by omega)
  have b4 := checkedByte_take buf 21 (by omega)
  have b5 := checkedByte_take buf 22 (by omega)
  have b6 := checkedByte_take buf 23 (by omega)
  simp only [decode, s1, s2, s3, s4, s5, s6, s7, s8, s9, s10, s11, s12, s13,
    s14, s15, s16, s17, b1, b2, b3, b4, b5, b6]

/-- Claim C9: the `Display` implementation of `Error::InvalidPageSize`
writes the empty format string, so the carried message never reaches the
rendered diagnostic, whatever it is. -/
theorem c9_invalid_page_size_displays_empty (m : String) :
    Error.display (Error.invalidPageSize m) = "" := rfl

/-- Claim C10: `magic_header_string` returns the constant UTF-8 decoding
of `MAGIC_HEADER_BYTES` — the string `SQLite format 3` followed by the
NUL character — for every header value; the header stores no magic field
of its own (the method ignores `self`). -/
theorem c10_magic_header_string_constant (h : SQLite3Header) :
    h.magic_header_string = "SQLite format 3\x00" := by
  show asciiString MAGIC_HEADER_BYTES = "SQLite format 3\x00"
  decide

/-- Witness for C8: appending a 101st byte does not change the result. -/
theorem c8_decode_bounded_scan_witness :
    decode (validBuf ++ [5]) = decode ((validBuf ++ [5]).take 100) :=
  c8_decode_bounded_scan (validBuf ++ [5])

/-- Witness for C9 at a concrete message. -/
theorem c9_invalid_page_size_displays_empty_witness :
    Error.display (Error.invalidPageSize "expected a power of two") = "" :=
  c9_invalid_page_size_displays_empty "expected a power of two"

/-- Witness for C10 at a concrete header value. -/
theorem c10_magic_header_string_constant_witness :
    (SQLite3Header.mk 512 .Legacy .Legacy 0 ⟨32, 64, 32⟩ 0 0 ⟨0, 0⟩
        ⟨0, .Format1⟩ 0 .Utf8 0 none 0 ⟨0, 0⟩).magic_header_string =
      "SQLite format 3\x00" :=
  c10_magic_header_string_constant
    (SQLite3Header.mk 512 .Legacy .Legacy 0 ⟨32, 64, 32⟩ 0 0 ⟨0, 0⟩
      ⟨0, .Format1⟩ 0 .Utf8 0 none 0 ⟨0, 0⟩)
